import Mathlib

/-!
Verification of the D1 database mock adapter (`src/d1.ts`) of `cf-bun-mocks`.

The adapter translates between the embedded SQL engine (`bun:sqlite`) and
the Cloudflare D1 client contract.  The engine itself is external to the
repository, so it is modelled abstractly: a prepared statement is a record
of the engine entry points the adapter calls (`get`, `all`, `values`,
`run`, `columnNames`), each returning `Except String _` to model a thrown
engine error, and a database connection is a state machine whose `run`
entry point executes raw SQL text.  Engine coherence facts that the
adapter relies on but does not implement (e.g. that `values()` returns the
same rows as `all()` in column order) are isolated in `Stmt.WF`.

SQL values are modelled as an inductive `Value` (integers, text, blobs,
NULL; SQLite floating point reals are outside the model).  JavaScript
rows (objects keyed by column name) are association lists, JS `undefined`
or `null` results are `Option`, and JS exceptions are the `Except.error`
constructor carrying the error message.
-/

/-- A SQL value as surfaced by the engine to JavaScript. -/
inductive Value
  | null
  | int (i : Int)
  | text (s : String)
  | blob (bytes : List Nat)
deriving DecidableEq

/-- A result row: a field-name-to-value mapping (a JS object). -/
def Row : Type := List (String × Value)

instance : DecidableEq Row := by unfold Row; infer_instance

/-- JS property access `row[c]`: `none` models `undefined`. -/
def Row.lookup (r : Row) (c : String) : Option Value :=
  List.lookup c r

/-- Lexicographic comparison of character sequences, mirroring the default
JS `Array.prototype.sort` comparator on strings (code-unit order; for the
characters appearing in file names this is plain character order). -/
def charListLe : List Char → List Char → Bool
  | [], _ => true
  | _ :: _, [] => false
  | a :: as, b :: bs => if a < b then true else if b < a then false else charListLe as bs

/-- String comparison used by the bootstrapper's `sort()`. -/
def strLe (a b : String) : Bool := charListLe a.data b.data

/-- `l` begins with `p` (character-wise). -/
def charsBeginWith : List Char → List Char → Bool
  | _, [] => true
  | [], _ :: _ => false
  | a :: as, b :: bs => a == b && charsBeginWith as bs

/-- JS `String.prototype.endsWith`, written structurally over the
character data so that it evaluates inside the kernel. -/
def strEnds (s p : String) : Bool :=
  charsBeginWith s.data.reverse p.data.reverse

/-- The affected-row record returned by the engine's `run` (bun:sqlite
`Changes`): the affected-row count and the last inserted row id. -/
structure RunChanges where
  changes : Nat
  lastInsertRowid : Int
deriving DecidableEq

/-- JS `Number(x)` applied to the engine's row id.  The engine hands the
adapter an integer (bun:sqlite `number | bigint`); on integers in the safe
range the coercion is the identity, which is how it is modelled here. -/
def jsNumber (i : Int) : Int := i

/-- The engine entry points of one compiled statement (bun:sqlite
`Statement`), abstract over the SQL semantics.  Each call takes the
positional bound values; `Except.error` models a thrown engine error. -/
structure Stmt where
  columnNames : List String
  get : List Value → Except String (Option Row)
  all : List Value → Except String (List Row)
  values : List Value → Except String (List (List Value))
  run : List Value → Except String RunChanges

/-- One row's values in the statement's column order, as `values()`
presents them. -/
def rowValues (cols : List String) (r : Row) : List Value :=
  cols.map (fun c => (r.lookup c).getD Value.null)

/-- Engine coherence facts the adapter relies on: `get` returns the first
row of `all`, and `values` returns exactly `all`'s rows as value arrays in
column order. -/
structure Stmt.WF (st : Stmt) : Prop where
  get_eq : ∀ bv, st.get bv = (st.all bv).map List.head?
  values_eq : ∀ bv,
    st.values bv = (st.all bv).map (fun rows => rows.map (rowValues st.columnNames))

/-- The `meta` block of a D1 result envelope (field order as in source). -/
structure D1Meta where
  duration : Nat
  size_after : Nat
  rows_read : Nat
  rows_written : Nat
  last_row_id : Int
  changed_db : Bool
  changes : Nat
deriving DecidableEq

/-- The D1 Result Envelope produced by `run`/`all`/`batch`. -/
structure D1Result where
  success : Bool
  meta : D1Meta
  results : List Row
deriving DecidableEq

/-- The envelope returned by `exec`. -/
structure D1ExecResult where
  count : Nat
  duration : Nat
deriving DecidableEq

/-- `D1PreparedStatementMock`: a compiled statement plus the currently
bound positional values (replaced wholesale by `bind`). -/
structure D1PreparedStatementMock where
  stmt : Stmt
  boundValues : List Value

/-- `bind(...values)`: replaces the bound-value sequence wholesale. -/
def D1PreparedStatementMock.bind
    (s : D1PreparedStatementMock) (values : List Value) : D1PreparedStatementMock :=
  { s with boundValues := values }

/-- The JS value returned by `first`: `null`, a whole row, or one
column's value (`.col none` models `undefined`). -/
inductive FirstRet
  | nullVal
  | row (r : Row)
  | col (v : Option Value)
deriving DecidableEq

/-- `first(colName?)` from the source: runs `get` with the bound values,
maps a missing row to `null`, and — when `colName` is truthy in the JS
sense (given and non-empty) — projects that column out of the row. -/
def D1PreparedStatementMock.first
    (s : D1PreparedStatementMock) (colName : Option String) : Except String FirstRet :=
  match s.stmt.get s.boundValues with
  | .error e => .error e
  | .ok none => .ok .nullVal
  | .ok (some result) =>
    match colName with
    | some c => if c == "" then .ok (.row result) else .ok (.col (result.lookup c))
    | none => .ok (.row result)

/-- `run()` from the source: executes for effect and wraps the engine's
affected-row record in a Result Envelope with empty `results`. -/
def D1PreparedStatementMock.run
    (s : D1PreparedStatementMock) : Except String D1Result :=
  (s.stmt.run s.boundValues).map (fun changes =>
    { success := true
      meta := { duration := 0
                size_after := 0
                rows_read := 0
                rows_written := changes.changes
                last_row_id := jsNumber changes.lastInsertRowid
                changed_db := decide (changes.changes > 0)
                changes := changes.changes }
      results := [] })

/-- `all()` from the source: fetches every row and wraps them in a Result
Envelope with `rows_read` set to the row count. -/
def D1PreparedStatementMock.all
    (s : D1PreparedStatementMock) : Except String D1Result :=
  (s.stmt.all s.boundValues).map (fun results =>
    { success := true
      meta := { duration := 0
                size_after := 0
                rows_read := results.length
                rows_written := 0
                last_row_id := 0
                changed_db := false
                changes := 0 }
      results := results })

/-- The optional options object of `raw`; `columnNames` is itself an
optional field. -/
structure RawOpts where
  columnNames : Option Bool
deriving DecidableEq

/-- JS truthiness of `options?.columnNames`. -/
def rawOptTruthy : Option RawOpts → Bool
  | some ⟨some true⟩ => true
  | _ => false

/-- One element of `raw`'s returned array: the column-name header or one
row's values (the TS union `string[] | T[]` as a disjoint sum). -/
inductive RawEntry
  | header (names : List String)
  | rowVals (vals : List Value)
deriving DecidableEq

/-- `raw(options?)` from the source: runs `values` with the bound values
and, when `options?.columnNames` is truthy, prepends the column names. -/
def D1PreparedStatementMock.raw
    (s : D1PreparedStatementMock) (options : Option RawOpts) :
    Except String (List RawEntry) :=
  (s.stmt.values s.boundValues).map (fun values =>
    if rawOptTruthy options then
      RawEntry.header s.stmt.columnNames :: values.map RawEntry.rowVals
    else
      values.map RawEntry.rowVals)

/-- One element of the array handed to `batch`: either an instance of the
adapter's own `D1PreparedStatementMock` class, or a foreign
`D1PreparedStatement` implementation (the `instanceof` test fails). -/
inductive BatchStmt
  | mock (s : D1PreparedStatementMock)
  | foreign

/-- The payload of the `instanceof D1PreparedStatementMock` test. -/
def BatchStmt.toMock : BatchStmt → Option D1PreparedStatementMock
  | .mock s => some s
  | .foreign => none

/-- `D1Mock.batch(statements)` from the source: loops over the given
statements in order, skips any that are not `D1PreparedStatementMock`
instances, awaits `all()` on the rest and collects the envelopes; a
rejection from `all()` rejects the whole batch. -/
def D1Mock.batch : List BatchStmt → Except String (List D1Result)
  | [] => .ok []
  | .foreign :: rest => D1Mock.batch rest
  | .mock s :: rest =>
    match s.all with
    | .error e => .error e
    | .ok result => (D1Mock.batch rest).map (fun rs => result :: rs)

/-- Reference: run `all()` on each statement of a list sequentially,
collecting the envelopes in order (the spec's description of what `batch`
does to the conforming statements). -/
def allSeq : List D1PreparedStatementMock → Except String (List D1Result)
  | [] => .ok []
  | s :: rest =>
    match s.all with
    | .error e => .error e
    | .ok result => (allSeq rest).map (fun rs => result :: rs)

/-- The engine's database connection (bun:sqlite `Database`), abstract
over SQL semantics: `run` executes raw (possibly multi-statement) SQL
text against state `σ`, yielding the new state and the affected-row
record, or a thrown engine error. -/
structure DbEngine (σ : Type) where
  run : σ → String → Except String (σ × RunChanges)

/-- `D1Mock.exec(query)` from the source: runs the raw SQL through the
engine; on success returns the affected-row count together with the
elapsed wall-clock milliseconds (measured via `performance.now`, passed
in here as `elapsed` since real time is outside the model); on failure
wraps the engine message and the query text into a new error. -/
def D1Mock.exec {σ : Type} (eng : DbEngine σ) (db : σ) (query : String)
    (elapsed : Nat) : Except String (σ × D1ExecResult) :=
  match eng.run db query with
  | .ok (db2, ch) => .ok (db2, { count := ch.changes, duration := elapsed })
  | .error e => .error ("D1Mock exec failed: " ++ e ++ "\nQuery: " ++ query)

/-- `dump()`'s buffer: the engine serialization as bytes, flagged with
whether it lives in shareable memory (`SharedArrayBuffer`). -/
structure JsBuffer where
  shared : Bool
  data : List Nat
deriving DecidableEq

/-- `D1Mock.dump()` from the source, applied to the buffer the engine's
`serialize()` yields: a shareable-memory buffer is copied byte-for-byte
into a fresh plain buffer; a plain buffer is returned as is. -/
def D1Mock.dump (serialized : JsBuffer) : JsBuffer :=
  if serialized.shared then { shared := false, data := serialized.data }
  else serialized

/-- The `.sql`-filtered, lexicographically sorted directory listing used
by `createD1Mock` (JS `readdirSync(..).filter(f => f.endsWith(".sql")).sort()`;
`insertionSort` is a stable sort agreeing with the JS comparator). -/
def sortedSqlFiles (entries : List String) : List String :=
  List.insertionSort (fun a b => strLe a b = true)
    (entries.filter (fun f => strEnds f ".sql"))

/-- The migration loop of `createD1Mock`: runs each file's text through
`exec`, wrapping the first failure with the failing file name. -/
def migrateLoop {σ : Type} (eng : DbEngine σ) (read : String → String) :
    σ → List String → Except String σ
  | db, [] => .ok db
  | db, file :: rest =>
    match D1Mock.exec eng db (read file) 0 with
    | .ok (db2, _) => migrateLoop eng read db2 rest
    | .error e => .error ("Failed to execute migration " ++ file ++ ": " ++ e)

/-- `createD1Mock(migrationsPath)` from the source: list the directory
(`entries`), keep the `.sql` files, sort them, start from a fresh
in-memory database (`init`) and apply each file's text (`read`) through
`exec`, failing on the first broken file. -/
def createD1Mock {σ : Type} (eng : DbEngine σ) (init : σ)
    (entries : List String) (read : String → String) : Except String σ :=
  migrateLoop eng read init (sortedSqlFiles entries)

/-- Reference: fold the raw engine `run` over a list of SQL texts,
propagating the first raw engine error unchanged. -/
def applyAll {σ : Type} (eng : DbEngine σ) : σ → List String → Except String σ
  | db, [] => .ok db
  | db, q :: rest =>
    match eng.run db q with
    | .ok (db2, _) => applyAll eng db2 rest
    | .error e => .error e

/-! Concrete sample instances, used to witness the theorems below on
closed inputs. -/

/-- Sample row of a one-column result set. -/
def demoRow : Row := [("a", Value.int 1)]

/-- Second sample row. -/
def demoRow2 : Row := [("a", Value.int 2)]

/-- A concrete coherent statement: a two-row result set over column `a`,
whose mutation path reports 2 affected rows and last row id 7. -/
def demoStmt : Stmt where
  columnNames := ["a"]
  get := fun _ => .ok (some demoRow)
  all := fun _ => .ok [demoRow, demoRow2]
  values := fun _ => .ok [[Value.int 1], [Value.int 2]]
  run := fun _ => .ok ⟨2, 7⟩

/-- The sample statement satisfies the engine coherence facts. -/
theorem demoStmt_wf : demoStmt.WF :=
  ⟨fun _ => rfl, fun _ => rfl⟩

/-- A sample prepared-statement adapter over `demoStmt`. -/
def demoStatement : D1PreparedStatementMock := ⟨demoStmt, []⟩

/-- The envelope `all()` produces on `demoStatement`. -/
def demoEnvAll : D1Result :=
  { success := true
    meta := ⟨0, 0, 2, 0, 0, false, 0⟩
    results := [demoRow, demoRow2] }

/-- A concrete database engine over state `Nat` (a transaction counter):
the query `"boom"` throws `"bad"`, anything else succeeds with one
affected row. -/
def demoEng : DbEngine Nat where
  run := fun s q => if q == "boom" then .error "bad" else .ok (s + 1, ⟨1, 0⟩)

/-- A concrete engine that fails on every `a.sql` migration body. -/
def demoFailEng : DbEngine Nat where
  run := fun s q => if q == "a.sql" then .error "boom" else .ok (s + 1, ⟨1, 0⟩)

/-- Reads used by the sample bootstraps: each file's text is its name. -/
def demoRead (f : String) : String := f

/-! Claim theorems. -/

/-- C2: for every prepared statement and currently bound values, `run()`
returns a Result Envelope with empty `results`, `rows_written` and
`changes` equal to the engine's affected-row count, `last_row_id` the
numeric coercion of the engine's last-inserted row id, and `changed_db`
true iff the affected-row count is positive. -/
theorem run_returns_write_meta (s : D1PreparedStatementMock) (ch : RunChanges)
    (h : s.stmt.run s.boundValues = .ok ch) :
    D1PreparedStatementMock.run s = .ok
      { success := true
        meta := { duration := 0
                  size_after := 0
                  rows_read := 0
                  rows_written := ch.changes
                  last_row_id := jsNumber ch.lastInsertRowid
                  changed_db := decide (ch.changes > 0)
                  changes := ch.changes }
        results := [] } ∧
    (decide (ch.changes > 0) = true ↔ ch.changes > 0) := by
  refine ⟨?_, by simp⟩
  unfold D1PreparedStatementMock.run
  rw [h]
  rfl

/-- Witness for `run_returns_write_meta` on the sample statement. -/
theorem run_returns_write_meta_witness :
    demoStatement.stmt.run demoStatement.boundValues = .ok ⟨2, 7⟩ ∧
    D1PreparedStatementMock.run demoStatement = .ok
      { success := true
        meta := ⟨0, 0, 0, 2, 7, true, 2⟩
        results := [] } :=
  ⟨rfl, (run_returns_write_meta demoStatement ⟨2, 7⟩ rfl).1⟩

/-- C3: for every prepared statement and currently bound values, `all()`
returns a Result Envelope whose `results` is the ordered row sequence,
whose `rows_read` is the row count, and whose write-metadata fields are
at their zero/false defaults. -/
theorem all_returns_rows_meta (s : D1PreparedStatementMock) (rows : List Row)
    (h : s.stmt.all s.boundValues = .ok rows) :
    D1PreparedStatementMock.all s = .ok
      { success := true
        meta := { duration := 0
                  size_after := 0
                  rows_read := rows.length
                  rows_written := 0
                  last_row_id := 0
                  changed_db := false
                  changes := 0 }
        results := rows } := by
  unfold D1PreparedStatementMock.all
  rw [h]
  rfl

/-- Witness for `all_returns_rows_meta` on the sample statement. -/
theorem all_returns_rows_meta_witness :
    demoStatement.stmt.all demoStatement.boundValues = .ok [demoRow, demoRow2] ∧
    D1PreparedStatementMock.all demoStatement = .ok demoEnvAll :=
  ⟨rfl, all_returns_rows_meta demoStatement [demoRow, demoRow2] rfl⟩

/-- C9: `dump()` always returns a non-shareable buffer whose bytes (and
hence length) are identical to the engine's serialization, copying when
the engine yields a shareable-memory buffer. -/
theorem dump_plain_buffer (b : JsBuffer) :
    (D1Mock.dump b).shared = false ∧
    (D1Mock.dump b).data = b.data ∧
    (D1Mock.dump b).data.length = b.data.length := by
  unfold D1Mock.dump
  by_cases h : b.shared <;> simp [h]

/-- C5: for every prepared statement and currently bound values,
`first()` without a column name succeeds, returning `null` exactly when
the query matches no row, and the first row (in the engine's result
order) otherwise. -/
theorem first_null_iff_no_rows (s : D1PreparedStatementMock) (hwf : s.stmt.WF)
    (rows : List Row) (h : s.stmt.all s.boundValues = .ok rows) :
    D1PreparedStatementMock.first s none = .ok
      (match rows.head? with
       | none => FirstRet.nullVal
       | some r => FirstRet.row r) := by
  unfold D1PreparedStatementMock.first
  rw [hwf.get_eq, h]
  cases rows <;> rfl

/-- Witness for `first_null_iff_no_rows` on the sample statement. -/
theorem first_null_iff_no_rows_witness :
    demoStatement.stmt.all demoStatement.boundValues = .ok [demoRow, demoRow2] ∧
    D1PreparedStatementMock.first demoStatement none = .ok (FirstRet.row demoRow) :=
  ⟨rfl, first_null_iff_no_rows demoStatement demoStmt_wf [demoRow, demoRow2] rfl⟩

/-- A statement whose single column is named by the empty string (legal
SQL: `SELECT 1 AS ""`), exposing the JS truthiness test in `first`. -/
def emptyNameStmt : Stmt where
  columnNames := [""]
  get := fun _ => .ok (some [("", Value.int 1)])
  all := fun _ => .ok [[("", Value.int 1)]]
  values := fun _ => .ok [[Value.int 1]]
  run := fun _ => .ok ⟨0, 0⟩

/-- The prepared-statement adapter over `emptyNameStmt`. -/
def emptyNameStatement : D1PreparedStatementMock := ⟨emptyNameStmt, []⟩

/-- C6 counterexample: on a row whose column is named `""`, `first()`
yields the row, the row's entry at `""` is the value 1, yet `first("")`
does not return that value — the JS-truthiness test `if (colName)`
treats the empty column name as absent and returns the whole row. -/
theorem first_empty_column_cex :
    D1PreparedStatementMock.first emptyNameStatement none =
      .ok (FirstRet.row [("", Value.int 1)]) ∧
    Row.lookup [("", Value.int 1)] "" = some (Value.int 1) ∧
    D1PreparedStatementMock.first emptyNameStatement (some "") ≠
      .ok (FirstRet.col (some (Value.int 1))) := by
  refine ⟨rfl, rfl, fun hcontra => ?_⟩
  exact FirstRet.noConfusion (Except.ok.inj hcontra)

/-- C6 (amended): for every valid non-empty column name `c` of the result
row, `first(c)` returns the same value as the entry for `c` in the
mapping returned by `first()`. -/
theorem first_column_agrees (s : D1PreparedStatementMock) (c : String) (r : Row)
    (v : Value) (hne : c ≠ "")
    (hrow : D1PreparedStatementMock.first s none = .ok (FirstRet.row r))
    (hv : r.lookup c = some v) :
    D1PreparedStatementMock.first s (some c) = .ok (FirstRet.col (some v)) := by
  cases hg : s.stmt.get s.boundValues with
  | error e => simp [D1PreparedStatementMock.first, hg] at hrow
  | ok o =>
    cases o with
    | none => simp [D1PreparedStatementMock.first, hg] at hrow
    | some res =>
      simp only [D1PreparedStatementMock.first, hg] at hrow ⊢
      have hres : res = r := by
        simpa using hrow
      rw [if_neg (by simp [hne]), hres, hv]

/-- Witness for `first_column_agrees` on the sample statement. -/
theorem first_column_agrees_witness :
    ("a" : String) ≠ "" ∧
    D1PreparedStatementMock.first demoStatement none = .ok (FirstRet.row demoRow) ∧
    Row.lookup demoRow "a" = some (Value.int 1) ∧
    D1PreparedStatementMock.first demoStatement (some "a") =
      .ok (FirstRet.col (some (Value.int 1))) :=
  ⟨by decide, rfl, rfl,
   first_column_agrees demoStatement "a" demoRow (Value.int 1) (by decide) rfl rfl⟩

/-- C4: `raw({ columnNames: true })` returns the column-name header
followed by one value sequence per row of `all()` (so its length is the
row count plus one), while `raw()` with no options, with
`columnNames: false`, or with an options object missing the field,
returns only the row-value sequences. -/
theorem raw_header_shapes (s : D1PreparedStatementMock) (hwf : s.stmt.WF)
    (rows : List Row) (h : s.stmt.all s.boundValues = .ok rows) :
    D1PreparedStatementMock.raw s (some ⟨some true⟩) = .ok
      (RawEntry.header s.stmt.columnNames ::
        rows.map (fun r => RawEntry.rowVals (rowValues s.stmt.columnNames r))) ∧
    (RawEntry.header s.stmt.columnNames ::
        rows.map (fun r => RawEntry.rowVals (rowValues s.stmt.columnNames r))).length
      = rows.length + 1 ∧
    D1PreparedStatementMock.raw s none = .ok
      (rows.map (fun r => RawEntry.rowVals (rowValues s.stmt.columnNames r))) ∧
    D1PreparedStatementMock.raw s (some ⟨some false⟩) = .ok
      (rows.map (fun r => RawEntry.rowVals (rowValues s.stmt.columnNames r))) ∧
    D1PreparedStatementMock.raw s (some ⟨none⟩) = .ok
      (rows.map (fun r => RawEntry.rowVals (rowValues s.stmt.columnNames r))) := by
  have hv := hwf.values_eq s.boundValues
  rw [h] at hv
  refine ⟨?_, by simp, ?_, ?_, ?_⟩ <;>
  · unfold D1PreparedStatementMock.raw
    rw [hv]
    simp [rawOptTruthy, Except.map, List.map_map]

/-- Witness for `raw_header_shapes` on the sample statement. -/
theorem raw_header_shapes_witness :
    demoStatement.stmt.all demoStatement.boundValues = .ok [demoRow, demoRow2] ∧
    D1PreparedStatementMock.raw demoStatement (some ⟨some true⟩) = .ok
      [RawEntry.header ["a"], RawEntry.rowVals [Value.int 1],
       RawEntry.rowVals [Value.int 2]] ∧
    D1PreparedStatementMock.raw demoStatement none = .ok
      [RawEntry.rowVals [Value.int 1], RawEntry.rowVals [Value.int 2]] :=
  ⟨rfl,
   (raw_header_shapes demoStatement demoStmt_wf [demoRow, demoRow2] rfl).1,
   (raw_header_shapes demoStatement demoStmt_wf [demoRow, demoRow2] rfl).2.2.1⟩

/-- `batch` equals running `all()` over exactly the statements that pass
the `instanceof` test, in input order. -/
theorem batch_eq_allSeq (stmts : List BatchStmt) :
    D1Mock.batch stmts = allSeq (stmts.filterMap BatchStmt.toMock) := by
  induction stmts with
  | nil => rfl
  | cons t rest ih =>
    cases t with
    | foreign => simpa [D1Mock.batch, BatchStmt.toMock] using ih
    | mock s =>
      cases hall : D1PreparedStatementMock.all s with
      | error e => simp [D1Mock.batch, allSeq, BatchStmt.toMock, hall]
      | ok r => simp [D1Mock.batch, allSeq, BatchStmt.toMock, hall, ih]

/-- When every batched statement passes the `instanceof` test, a
successful batch is index-aligned with its input. -/
theorem batch_index_aligned : ∀ (stmts : List BatchStmt) (rs : List D1Result),
    D1Mock.batch stmts = .ok rs →
    (∀ t ∈ stmts, t.toMock.isSome = true) →
    rs.length = stmts.length ∧
    ∀ (i : Nat) (hi : i < stmts.length) (s : D1PreparedStatementMock),
      stmts.get ⟨i, hi⟩ = BatchStmt.mock s →
      rs[i]? = (D1PreparedStatementMock.all s).toOption := by
  intro stmts
  induction stmts with
  | nil =>
    intro rs hb _
    have hrs : ([] : List D1Result) = rs := by
      simpa [D1Mock.batch] using hb
    subst hrs
    exact ⟨rfl, fun i hi s h => absurd hi (by simp)⟩
  | cons t rest ih =>
    intro rs hb hall
    cases t with
    | foreign =>
      have hfor := hall .foreign (by simp)
      simp [BatchStmt.toMock] at hfor
    | mock s0 =>
      cases hres : D1PreparedStatementMock.all s0 with
      | error e => simp [D1Mock.batch, hres] at hb
      | ok r =>
        cases hbr : D1Mock.batch rest with
        | error e => simp [D1Mock.batch, hres, hbr, Except.map] at hb
        | ok rs2 =>
          have hrs : r :: rs2 = rs := by
            simpa [D1Mock.batch, hres, hbr, Except.map] using hb
          subst hrs
          have hrest := ih rs2 hbr (fun t ht => hall t (by simp [ht]))
          refine ⟨by simpa using hrest.1, ?_⟩
          intro i hi s h
          cases i with
          | zero =>
            have hs : s0 = s := by simpa using h
            subst hs
            simp [hres, Except.toOption]
          | succ j =>
            have hj : j < rest.length := by simpa using hi
            have := hrest.2 j hj s (by simpa using h)
            simpa using this

/-- C1: `batch(statements)` executes exactly the statements that are
instances of the adapter's own `D1PreparedStatementMock` type,
sequentially in input order, each via `all()`, returning their Result
Envelopes in that order; non-conforming statements are skipped silently
with no envelope, and when every statement conforms the output is
index-aligned with the input. -/
theorem batch_runs_own_statements (stmts : List BatchStmt) :
    D1Mock.batch stmts = allSeq (stmts.filterMap BatchStmt.toMock) ∧
    (∀ rs, D1Mock.batch stmts = .ok rs →
      (∀ t ∈ stmts, t.toMock.isSome = true) →
      rs.length = stmts.length ∧
      ∀ (i : Nat) (hi : i < stmts.length) (s : D1PreparedStatementMock),
        stmts.get ⟨i, hi⟩ = BatchStmt.mock s →
        rs[i]? = (D1PreparedStatementMock.all s).toOption) :=
  ⟨batch_eq_allSeq stmts, fun rs hb hall => batch_index_aligned stmts rs hb hall⟩

/-- Witness for `batch_runs_own_statements`: a one-statement batch whose
single envelope is `all()`'s envelope. -/
theorem batch_runs_own_statements_witness :
    D1Mock.batch [BatchStmt.mock demoStatement] = .ok [demoEnvAll] ∧
    [demoEnvAll][0]? = (D1PreparedStatementMock.all demoStatement).toOption :=
  ⟨rfl,
   ((batch_runs_own_statements [BatchStmt.mock demoStatement]).2 [demoEnvAll] rfl
      (by intro t ht; simp at ht; simp [ht, BatchStmt.toMock])).2
     0 (by simp) demoStatement rfl⟩

/-- A successful `run()` envelope has `success = true`. -/
theorem run_ok_success (s : D1PreparedStatementMock) (env : D1Result)
    (h : D1PreparedStatementMock.run s = .ok env) : env.success = true := by
  unfold D1PreparedStatementMock.run at h
  cases hr : s.stmt.run s.boundValues with
  | error e => rw [hr] at h; simp [Except.map] at h
  | ok ch =>
    rw [hr] at h
    simp [Except.map] at h
    rw [← h]

/-- A successful `all()` envelope has `success = true`. -/
theorem all_ok_success (s : D1PreparedStatementMock) (env : D1Result)
    (h : D1PreparedStatementMock.all s = .ok env) : env.success = true := by
  unfold D1PreparedStatementMock.all at h
  cases hr : s.stmt.all s.boundValues with
  | error e => rw [hr] at h; simp [Except.map] at h
  | ok rows =>
    rw [hr] at h
    simp [Except.map] at h
    rw [← h]

/-- Every envelope of a successful `batch()` has `success = true`. -/
theorem batch_ok_success : ∀ (stmts : List BatchStmt) (rs : List D1Result),
    D1Mock.batch stmts = .ok rs → ∀ r ∈ rs, r.success = true := by
  intro stmts
  induction stmts with
  | nil =>
    intro rs hb r hr
    have hrs : ([] : List D1Result) = rs := by simpa [D1Mock.batch] using hb
    subst hrs
    simp at hr
  | cons t rest ih =>
    intro rs hb r hr
    cases t with
    | foreign =>
      exact ih rs (by simpa [D1Mock.batch] using hb) r hr
    | mock s0 =>
      cases hres : D1PreparedStatementMock.all s0 with
      | error e => simp [D1Mock.batch, hres] at hb
      | ok r0 =>
        cases hbr : D1Mock.batch rest with
        | error e => simp [D1Mock.batch, hres, hbr, Except.map] at hb
        | ok rs2 =>
          have hrs : r0 :: rs2 = rs := by
            simpa [D1Mock.batch, hres, hbr, Except.map] using hb
          subst hrs
          rcases List.mem_cons.mp hr with h0 | h2
          · rw [h0]; exact all_ok_success s0 r0 hres
          · exact ih rs2 hbr r h2

/-- C10: every Result Envelope produced by `run()`, `all()` or `batch()`
carries `success = true`; a failing execution rejects instead of
returning an envelope with `success = false` (failure is the
`Except.error` branch, which carries no envelope). -/
theorem envelopes_success_true :
    (∀ (s : D1PreparedStatementMock) (env : D1Result),
        D1PreparedStatementMock.run s = .ok env → env.success = true) ∧
    (∀ (s : D1PreparedStatementMock) (env : D1Result),
        D1PreparedStatementMock.all s = .ok env → env.success = true) ∧
    (∀ (stmts : List BatchStmt) (rs : List D1Result),
        D1Mock.batch stmts = .ok rs → ∀ r ∈ rs, r.success = true) :=
  ⟨run_ok_success, all_ok_success, batch_ok_success⟩

/-- Witness for `envelopes_success_true` on the sample statement. -/
theorem envelopes_success_true_witness :
    D1PreparedStatementMock.all demoStatement = .ok demoEnvAll ∧
    demoEnvAll.success = true :=
  ⟨rfl, envelopes_success_true.2.1 demoStatement demoEnvAll rfl⟩

/-- C7: `exec(query)` wraps an engine failure into a new error whose
message contains both the engine message and the query text; on engine
success it returns the affected-row count and the measured elapsed
milliseconds. -/
theorem exec_result_spec {σ : Type} (eng : DbEngine σ) (db : σ) (query : String)
    (elapsed : Nat) :
    (∀ e, eng.run db query = .error e →
      D1Mock.exec eng db query elapsed =
        .error ("D1Mock exec failed: " ++ e ++ "\nQuery: " ++ query) ∧
      ∃ pre mid post : String,
        "D1Mock exec failed: " ++ e ++ "\nQuery: " ++ query =
          pre ++ e ++ mid ++ query ++ post) ∧
    (∀ (db2 : σ) (ch : RunChanges), eng.run db query = .ok (db2, ch) →
      D1Mock.exec eng db query elapsed =
        .ok (db2, { count := ch.changes, duration := elapsed })) := by
  constructor
  · intro e he
    refine ⟨?_, "D1Mock exec failed: ", "\nQuery: ", "", by simp⟩
    unfold D1Mock.exec
    rw [he]
  · intro db2 ch hok
    unfold D1Mock.exec
    rw [hok]

/-- Witness for `exec_result_spec`: the sample engine failing on
`"boom"` and succeeding on `"q"`. -/
theorem exec_result_spec_witness :
    demoEng.run 0 "boom" = .error "bad" ∧
    D1Mock.exec demoEng 0 "boom" 5 =
      .error ("D1Mock exec failed: " ++ "bad" ++ "\nQuery: " ++ "boom") ∧
    demoEng.run 0 "q" = .ok (1, ⟨1, 0⟩) ∧
    D1Mock.exec demoEng 0 "q" 5 = .ok (1, { count := 1, duration := 5 }) :=
  ⟨rfl, ((exec_result_spec demoEng 0 "boom" 5).1 "bad" rfl).1, rfl,
   (exec_result_spec demoEng 0 "q" 5).2 1 ⟨1, 0⟩ rfl⟩

/-- Transitivity of the character-sequence comparison. -/
theorem charListLe_trans : ∀ x y z : List Char,
    charListLe x y = true → charListLe y z = true → charListLe x z = true
  | [], _, _, _, _ => rfl
  | _ :: _, [], _, h1, _ => by simp [charListLe] at h1
  | _ :: _, _ :: _, [], _, h2 => by simp [charListLe] at h2
  | a :: as, b :: bs, c :: cs, h1, h2 => by
    simp only [charListLe] at h1 h2 ⊢
    by_cases hab : a < b
    · by_cases hbc : b < c
      · simp [lt_trans hab hbc]
      · by_cases hcb : c < b
        · simp [hbc, hcb] at h2
        · have hbceq : b = c := le_antisymm (not_lt.mp hcb) (not_lt.mp hbc)
          simp [hbceq ▸ hab]
    · by_cases hba : b < a
      · simp [hab, hba] at h1
      · rw [if_neg hab, if_neg hba] at h1
        have habeq : a = b := le_antisymm (not_lt.mp hba) (not_lt.mp hab)
        subst habeq
        by_cases hbc : a < c
        · simp [hbc]
        · by_cases hcb : c < a
          · rw [if_neg hbc, if_pos hcb] at h2
            exact absurd h2 (by simp)
          · rw [if_neg hbc, if_neg hcb] at h2 ⊢
            exact charListLe_trans as bs cs h1 h2

/-- Totality of the character-sequence comparison. -/
theorem charListLe_total : ∀ x y : List Char,
    charListLe x y = true ∨ charListLe y x = true
  | [], _ => Or.inl rfl
  | _ :: _, [] => Or.inr rfl
  | a :: as, b :: bs => by
    by_cases hab : a < b
    · exact Or.inl (by simp [charListLe, hab])
    · by_cases hba : b < a
      · exact Or.inr (by simp [charListLe, hba])
      · rcases charListLe_total as bs with h | h
        · exact Or.inl (by simp [charListLe, hab, hba, h])
        · exact Or.inr (by simp [charListLe, hba, hab, h])

/-- The bootstrapper's string comparison is transitive. -/
theorem strLe_trans (a b c : String) :
    strLe a b = true → strLe b c = true → strLe a c = true :=
  charListLe_trans a.data b.data c.data

/-- The bootstrapper's string comparison is total. -/
theorem strLe_total (a b : String) : strLe a b = true ∨ strLe b a = true :=
  charListLe_total a.data b.data

/-- The migration loop succeeds exactly when folding the raw engine
execution over the file bodies succeeds, with the same final state. -/
theorem migrateLoop_ok_iff {σ : Type} (eng : DbEngine σ) (read : String → String) :
    ∀ (files : List String) (db db2 : σ),
      migrateLoop eng read db files = .ok db2 ↔
        applyAll eng db (files.map read) = .ok db2 := by
  intro files
  induction files with
  | nil => intro db db2; simp [migrateLoop, applyAll]
  | cons f rest ih =>
    intro db db2
    cases hr : eng.run db (read f) with
    | ok p =>
      cases p with
      | mk dbn ch => simp [migrateLoop, applyAll, D1Mock.exec, hr, ih]
    | error e => simp [migrateLoop, applyAll, D1Mock.exec, hr]

/-- A failing migration loop decomposes as: a prefix of files applied
successfully, then one file whose engine execution throws, and the loop's
error wraps that file's name around `exec`'s enriched engine message. -/
theorem migrateLoop_error_decomp {σ : Type} (eng : DbEngine σ) (read : String → String) :
    ∀ (files : List String) (db : σ) (e : String),
      migrateLoop eng read db files = .error e →
      ∃ done file rest msg db2,
        files = done ++ file :: rest ∧
        applyAll eng db (done.map read) = .ok db2 ∧
        eng.run db2 (read file) = .error msg ∧
        e = "Failed to execute migration " ++ file ++ ": " ++
            ("D1Mock exec failed: " ++ msg ++ "\nQuery: " ++ read file) := by
  intro files
  induction files with
  | nil => intro db e h; simp [migrateLoop] at h
  | cons f rest ih =>
    intro db e h
    cases hr : eng.run db (read f) with
    | error msg =>
      refine ⟨[], f, rest, msg, db, rfl, by simp [applyAll], hr, ?_⟩
      have := h
      simp [migrateLoop, D1Mock.exec, hr] at this
      exact this.symm
    | ok p =>
      cases p with
      | mk dbn ch =>
        have h2 : migrateLoop eng read dbn rest = .error e := by
          simpa [migrateLoop, D1Mock.exec, hr] using h
        obtain ⟨done, file, rest2, msg, db2, hsplit, happ, herr, hmsg⟩ := ih dbn e h2
        exact ⟨f :: done, file, rest2, msg, db2, by rw [hsplit]; rfl,
               by simp [applyAll, hr, happ], herr, hmsg⟩

/-- C8: `createD1Mock` applies the lexicographically sorted `.sql`
entries of the directory — the applied file list is sorted and is a
permutation of exactly the `.sql` entries — by running each file's text
through `exec` in that order over the fresh database; it returns the
final database exactly when every file executes, and a failing file
aborts the bootstrap with an error naming that file and wrapping the
engine message, returning no database. -/
theorem createD1Mock_spec {σ : Type} (eng : DbEngine σ) (init : σ)
    (entries : List String) (read : String → String) :
    List.Sorted (fun a b => strLe a b = true) (sortedSqlFiles entries) ∧
    (sortedSqlFiles entries).Perm (entries.filter (fun f => strEnds f ".sql")) ∧
    (∀ db, createD1Mock eng init entries read = .ok db ↔
        applyAll eng init ((sortedSqlFiles entries).map read) = .ok db) ∧
    (∀ e, createD1Mock eng init entries read = .error e →
      ∃ done file rest msg db2,
        sortedSqlFiles entries = done ++ file :: rest ∧
        applyAll eng init (done.map read) = .ok db2 ∧
        eng.run db2 (read file) = .error msg ∧
        e = "Failed to execute migration " ++ file ++ ": " ++
            ("D1Mock exec failed: " ++ msg ++ "\nQuery: " ++ read file)) := by
  refine ⟨?_, ?_, ?_, ?_⟩
  · haveI : IsTrans String (fun a b => strLe a b = true) :=
      ⟨fun a b c => strLe_trans a b c⟩
    haveI : IsTotal String (fun a b => strLe a b = true) :=
      ⟨fun a b => strLe_total a b⟩
    exact List.sorted_insertionSort _ _
  · exact List.perm_insertionSort _ _
  · intro db
    exact migrateLoop_ok_iff eng read (sortedSqlFiles entries) init db
  · intro e he
    exact migrateLoop_error_decomp eng read (sortedSqlFiles entries) init e he

/-- Witness for `createD1Mock_spec`: the sample engine bootstraps two
`.sql` files (skipping `note.txt`), and the failing engine aborts with
the wrapped message naming the file. -/
theorem createD1Mock_spec_witness :
    createD1Mock demoEng 0 ["b.sql", "a.sql", "note.txt"] demoRead = .ok 2 ∧
    createD1Mock demoFailEng 0 ["a.sql"] demoRead =
      .error "Failed to execute migration a.sql: D1Mock exec failed: boom\nQuery: a.sql" :=
  ⟨((createD1Mock_spec demoEng 0 ["b.sql", "a.sql", "note.txt"] demoRead).2.2.1 2).mpr rfl,
   rfl⟩
